import Mathlib

/-!
Verification development for the fall-river-mirror transcript acquisition
and caching pipeline.  The definitions below are shallow embeddings of the
Python sources:

  * `FallRiver.WhisperProcessor`   — src/app/ai/whisper_processor.py
  * `FallRiver.TranscriptManager`  — src/app/data/transcript_manager.py
  * `FallRiver.Database`           — src/app/data/create_database.py
  * `FallRiver.VideoQueueManager`  — src/app/data/video_queue_manager.py

External collaborators (YouTube caption API, yt-dlp download, ffprobe/ffmpeg,
the OpenAI speech-to-text endpoint, the metadata API) are modelled as oracles
supplied through environment records; the SQLite database is modelled as an
explicit state value threaded through each operation.
-/

namespace FallRiver

namespace WhisperProcessor

/-- Constant `self.max_file_size = 25 * 1024 * 1024` (25 MB in bytes). -/
def max_file_size : Nat := 25 * 1024 * 1024

/-- Constant `self.chunk_duration = 1200` (20 minutes in seconds). -/
def chunk_duration : Nat := 1200

/-- Python `range(0, stop, step)` for `step > 0`: the list
`[0, step, 2*step, ...]` of all multiples of `step` below `stop`. -/
def pyRange (stop step : Nat) : List Nat :=
  (List.range ((stop + step - 1) / step)).map (fun k => k * step)

/-- The chunk start offsets produced by `_split_audio_file`:
`for start_time in range(0, int(total_duration), self.chunk_duration)`.
Python `int()` truncates the probed float duration toward zero before the
`range` call; for the non-negative durations ffprobe reports this is the
floor, and for a negative rational both the truncation and
`Int.toNat ∘ Int.floor` make the `range` empty. -/
def chunkStarts (total_duration : ℚ) : List Nat :=
  pyRange (Int.toNat ⌊total_duration⌋) chunk_duration

/-- Outcome of the `ffprobe` duration probe (`subprocess.run(..., check=True)`):
either a duration in seconds or a `CalledProcessError`. -/
inductive ProbeOutcome
  | ok (duration : ℚ)
  | fail (msg : String)

/-- Oracle describing the behaviour of every external tool one
`transcribe_youtube_video` run interacts with. -/
structure WhisperEnv where
  /-- whether the yt-dlp download succeeds -/
  downloadOk : Bool
  /-- basenames in the temp directory that start with the video id
  (the `downloaded_files` list) -/
  downloadedFiles : List String
  /-- result of `os.path.getsize` on the downloaded audio file -/
  fileSize : Nat
  /-- result of the ffprobe duration probe -/
  probe : ProbeOutcome
  /-- whether the ffmpeg extraction of chunk `i` succeeds -/
  extractOk : Nat → Bool
  /-- result of the speech-to-text call on chunk `i` -/
  transcribeChunk : Nat → Except String String
  /-- result of the speech-to-text call on the whole (small) file -/
  transcribeWhole : Except String String

/-- The ffmpeg extraction loop inside `_split_audio_file`, over the
`(chunk_count, start_time)` pairs.  Each successful extraction creates
`{video_id}_chunk_{i}.mp3` inside the temp directory; a failing extraction
raises `CalledProcessError` at that point, leaving the earlier chunk files
on disk.  The filesystem is the list of currently existing paths. -/
def extractChunks (env : WhisperEnv) (tempDir vid : String) :
    List (Nat × Nat) → List String → Except String Unit × List String
  | [], fs => (.ok (), fs)
  | (i, _start) :: rest, fs =>
    if env.extractOk i then
      extractChunks env tempDir vid rest
        (fs ++ [tempDir ++ "/" ++ vid ++ "_chunk_" ++ toString i ++ ".mp3"])
    else
      (.error ("Audio processing failed: ffmpeg chunk " ++ toString i), fs)

/-- Method `_split_audio_file`: probe the duration, then extract one chunk per
start offset.  A `CalledProcessError` from ffprobe or ffmpeg is re-raised by
`_transcribe_large_file` as `Exception("Audio processing failed: ...")`;
the embedding produces that message directly.  On success the list of
`(index, start_offset)` chunk descriptors is returned. -/
def split_audio_file (env : WhisperEnv) (tempDir vid : String) (fs : List String) :
    Except String (List (Nat × Nat)) × List String :=
  match env.probe with
  | .fail m => (.error ("Audio processing failed: " ++ m), fs)
  | .ok d =>
    let chunks := (chunkStarts d).enum
    let ex := extractChunks env tempDir vid chunks fs
    match ex.1 with
    | .ok _ => (.ok chunks, ex.2)
    | .error e => (.error e, ex.2)

/-- The transcription loop of `_transcribe_large_file`: chunks are
transcribed in list order and the first failure aborts the whole run. -/
def transcribeChunks (env : WhisperEnv) : List (Nat × Nat) → Except String (List String)
  | [] => .ok []
  | (i, _start) :: rest =>
    match env.transcribeChunk i with
    | .error e => .error e
    | .ok t =>
      match transcribeChunks env rest with
      | .error e => .error e
      | .ok ts => .ok (t :: ts)

/-- Method `_transcribe_large_file`: split into chunks, transcribe each chunk in
increasing start-time order, and combine with `" ".join(all_transcripts)`. -/
def transcribe_large_file (env : WhisperEnv) (tempDir vid : String) (fs : List String) :
    Except String String × List String :=
  let sp := split_audio_file env tempDir vid fs
  match sp.1 with
  | .error e => (.error e, sp.2)
  | .ok chunks =>
    match transcribeChunks env chunks with
    | .error e => (.error e, sp.2)
    | .ok ts => (.ok (String.intercalate " " ts), sp.2)

/-- Name of the scoped temporary directory `tempfile.mkdtemp()` creates for
one run. -/
def tempDirName : String := "/tmp/whisper_run"

/-- The body of the `try:` block of `transcribe_youtube_video`, entered
after the temp directory exists: download, look for the downloaded file,
branch on the 25 MB ceiling, transcribe. -/
def transcribeBody (env : WhisperEnv) (vid : String) (fs : List String) :
    Except String String × List String :=
  if env.downloadOk then
    let fs2 := fs ++ env.downloadedFiles.map (fun f => tempDirName ++ "/" ++ f)
    if env.downloadedFiles.isEmpty then
      (.error "No audio file was downloaded", fs2)
    else if max_file_size < env.fileSize then
      transcribe_large_file env tempDirName vid fs2
    else
      match env.transcribeWhole with
      | .ok t => (.ok t, fs2)
      | .error e => (.error e, fs2)
  else
    (.error "yt-dlp download error", fs)

/-- The `except Exception` clause: any failure inside the body is re-raised
as `Exception(f"Whisper transcription failed for video {video_id}: ...")`. -/
def wrapWhisperError (vid : String) : Except String String → Except String String
  | .ok t => .ok t
  | .error e => .error ("Whisper transcription failed for video " ++ vid ++ ": " ++ e)

/-- Method `transcribe_youtube_video`: create the temp directory, run the body,
wrap any exception, and in the `finally:` clause remove the temp directory
and everything inside it (`shutil.rmtree(temp_dir)`), on the success path
and on every raising path alike. -/
def transcribe_youtube_video (env : WhisperEnv) (vid : String) (fs0 : List String) :
    Except String String × List String :=
  let body := transcribeBody env vid (fs0 ++ [tempDirName])
  (wrapWhisperError vid body.1,
    body.2.filter (fun p => !(tempDirName.isPrefixOf p)))

/-- Chunk transcripts used by the concrete end-to-end scenario of the spec:
chunk 0 transcribes to `"A"`, chunk 1 to `"B"`, chunk 2 to `"C"`. -/
def chunkTexts : Nat → String :=
  fun i => if i = 0 then "A" else if i = 1 then "B" else "C"

/-- Concrete oracle for the spec's end-to-end scenario: a 40 MB download
whose duration probes at 2500 seconds, with all extractions and chunk
transcriptions succeeding. -/
def env2500 : WhisperEnv :=
  { downloadOk := true
    downloadedFiles := ["abc12345678.mp3"]
    fileSize := 40 * 1024 * 1024
    probe := .ok 2500
    extractOk := fun _ => true
    transcribeChunk := fun i => .ok (chunkTexts i)
    transcribeWhole := .ok "" }

/-- Concrete oracle for an over-ceiling file whose duration probes at 0. -/
def envDurZero : WhisperEnv :=
  { env2500 with probe := .ok 0 }

/-- Concrete oracle whose duration probe raises `CalledProcessError`. -/
def envProbeFail : WhisperEnv :=
  { env2500 with probe := .fail "ffprobe exited 1" }

end WhisperProcessor

/-- The `AIAgent` str-enum from enum_classes.py; `TranscriptManager` keeps
one of these in its mutable `self.category` field. -/
inductive AIAgent
  | grok
  | whisper
deriving DecidableEq

/-- Underlying string of the str-enum member (what SQLite stores when the
member is bound as a query parameter). -/
def AIAgent.value : AIAgent → String
  | .grok => "Grok"
  | .whisper => "Whisper"

/-- The dictionary `YouTubeMetadataFetcher.get_video_published_date`
returns on success (youtube_metadata_fetcher.py). -/
structure VideoMetadata where
  published_at : String
  title : String
  channel_title : String
  duration_seconds : Int
  duration_formatted : String
  view_count : Int
  like_count : Int
  comment_count : Int
  meeting_date : Option String
  committee : String
deriving DecidableEq

/-- One row of the `transcripts` table, fields in the column order of
`Database._create_all_tables` (create_database.py lines 126-143).  The
schema puts no UNIQUE constraint on `youtube_id`. -/
structure TranscriptRow where
  id : Nat
  committee : Option String
  youtube_id : String
  content : String
  meeting_date : Option String
  yt_published_date : Option String
  fetch_date : String
  model : String
  video_title : Option String
  video_duration_seconds : Option Int
  video_duration_formatted : Option String
  video_channel : Option String
  view_count : Option Int
  like_count : Option Int
  comment_count : Option Int
deriving DecidableEq

/-- One row of the `video_queue` table
(`youtube_id TEXT UNIQUE NOT NULL, transcript_available INTEGER`). -/
structure QueueRow where
  id : Nat
  youtube_id : String
  transcript_available : Bool
deriving DecidableEq

/-- State of one `Database` object: the two tables the pipeline touches
(rows listed in rowid order), the rowid counters, the connection flags, and
the identity of the single shared `sqlite3` connection `_connect` opened
with `check_same_thread=False`. -/
structure DBState where
  transcripts : List TranscriptRow
  video_queue : List QueueRow
  nextTranscriptId : Nat
  nextQueueId : Nat
  connected : Bool
  writable : Bool
  connId : Nat
deriving DecidableEq

/-- Identity of the SQLite connection an operation runs on: either the
single `self.conn` handle `_connect` created (shared by every method and
every caller of this `Database` object), or a fresh
`sqlite3.connect(db_path)` handle opened for one call. -/
inductive ConnUsed
  | shared (connId : Nat)
  | fresh (connId : Nat)
deriving DecidableEq

/-- Whether the connection is the shared `self.conn` handle. -/
def ConnUsed.isShared : ConnUsed → Bool
  | .shared _ => true
  | .fresh _ => false

namespace Database

/-- Method `_connect` (create_database.py lines 52-65): open one
`sqlite3.connect(db_path, check_same_thread=False)` handle and store it on
the object; every later `self.conn` / `self.cursor` use runs on this one
shared handle. -/
def connect (db : DBState) (newConnId : Nat) : DBState :=
  { db with connected := true, connId := newConnId }

/-- Method `transcript_exists_by_youtube_id`: `SELECT COUNT(*) FROM transcripts
WHERE youtube_id = ?`, then `count > 0`. -/
def transcript_exists_by_youtube_id (db : DBState) (youtube_id : String) : Bool :=
  db.transcripts.any (fun r => r.youtube_id == youtube_id)

/-- Method `get_transcript_by_youtube_id`: `SELECT * FROM transcripts WHERE
youtube_id = ?` followed by `fetchone()` — the first matching row in rowid
order, or `None`. -/
def get_transcript_by_youtube_id (db : DBState) (youtube_id : String) :
    Option TranscriptRow :=
  (db.transcripts.filter (fun r => r.youtube_id == youtube_id)).head?

/-- Method `test_write_permissions`: probes writability, returning a boolean. -/
def test_write_permissions (db : DBState) : Bool :=
  db.writable

end Database

namespace TranscriptManager

/-- One `{text, start, duration}` caption snippet from the YouTube
transcript API response. -/
structure Snippet where
  text : String
  start : ℚ
  duration : ℚ
deriving DecidableEq

/-- The `FetchedTranscript` object `ytt_api.fetch(youtube_id)` returns. -/
structure FetchedTranscript where
  snippets : List Snippet
  video_id : String
  language : String
  language_code : String
  is_generated : Bool
deriving DecidableEq

/-- Outcome of `ytt_api.fetch(youtube_id)`: a transcript, one of the four
captions-unavailable exceptions named in the `except` clause of
`_fetch_from_youtube` (`TranscriptsDisabled`, `NoTranscriptFound`,
`VideoUnavailable`, `CouldNotRetrieveTranscript`), or any other
exception. -/
inductive CaptionOutcome
  | fetched (t : FetchedTranscript)
  | transcriptsDisabled
  | noTranscriptFound
  | videoUnavailable
  | couldNotRetrieveTranscript
  | otherError (msg : String)

/-- Whether the caption fetch raised one of the four exceptions the
`except` clause of `_fetch_from_youtube` catches. -/
def CaptionOutcome.isCaptionsUnavailable : CaptionOutcome → Bool
  | .transcriptsDisabled => true
  | .noTranscriptFound => true
  | .videoUnavailable => true
  | .couldNotRetrieveTranscript => true
  | _ => false

/-- Rendering of a rational the way the serialized snippet dict renders a
number; any injective deterministic rendering works, no claim inspects it. -/
def qStr (q : ℚ) : String := toString q

/-- Serialization of one snippet inside `json.dumps(transcript_dict)`. -/
def serializeSnippet (s : Snippet) : String :=
  "\x7b\"text\": " ++ s.text.quote ++ ", \"start\": " ++ qStr s.start
    ++ ", \"duration\": " ++ qStr s.duration ++ "\x7d"

/-- The `json.dumps(transcript_dict)` string `_fetch_from_youtube` builds
from the fetched transcript on the captions path. -/
def serializeTranscript (t : FetchedTranscript) : String :=
  "\x7b\"snippets\": [" ++ String.intercalate ", " (t.snippets.map serializeSnippet)
    ++ "], \"video_id\": " ++ t.video_id.quote
    ++ ", \"language\": " ++ t.language.quote
    ++ ", \"language_code\": " ++ t.language_code.quote
    ++ ", \"is_generated\": " ++ (if t.is_generated then "true" else "false")
    ++ "\x7d"

/-- Oracle for the external collaborators one `get_transcript` call may
touch: the caption API, the whole audio fallback
(`WhisperProcessor.transcribe_youtube_video`, whose failures already carry
the `Whisper transcription failed ...` message), the metadata fetch (`none`
covers both a missing API key and a fetch failure, which
`_fetch_from_youtube` absorbs), and the wall clock. -/
structure Env where
  captions : String → CaptionOutcome
  whisper : String → Except String String
  metadata : String → Option VideoMetadata
  now : String

/-- Counts of external calls performed during one operation. -/
structure Calls where
  captions : Nat
  whisper : Nat
  metadata : Nat
deriving DecidableEq

/-- No external call performed. -/
def Calls.zero : Calls := ⟨0, 0, 0⟩

/-- The value `_fetch_from_youtube` returns: on the captions path a dict
with `transcript` and `video_metadata` keys; on the whisper-fallback path
the bare transcript string `_fetch_via_whisper` returns. -/
inductive RichData
  | dict (transcript : String) (video_metadata : Option VideoMetadata)
  | str (s : String)

/-- A raised Python exception (everything this flow raises derives from
`Exception`, so the `except Exception` clause of `get_transcript` can
catch any of these). -/
inductive PyErr
  | typeError (msg : String)
  | exception (msg : String)

/-- The `str(e)` text interpolated into the error response. -/
def PyErr.message : PyErr → String
  | .typeError m => m
  | .exception m => m

/-- Method `_fetch_from_youtube` (transcript_manager.py lines 290-366): try the
caption API; on success build the serialized dict plus best-effort
metadata; on one of the four captions-unavailable exceptions fall back to
`_fetch_via_whisper` (which sets `self.category` to `WHISPER` and returns
the bare transcript string); any other exception propagates.  The result
carries the raised-or-returned value, the manager's `category` field, and
the external calls made. -/
def fetch_from_youtube (env : Env) (category : AIAgent) (youtube_id : String) :
    Except PyErr RichData × AIAgent × Calls :=
  match env.captions youtube_id with
  | .fetched t =>
    (.ok (.dict (serializeTranscript t) (env.metadata youtube_id)), category, ⟨1, 0, 1⟩)
  | .transcriptsDisabled =>
    match env.whisper youtube_id with
    | .ok t => (.ok (.str t), .whisper, ⟨1, 1, 0⟩)
    | .error m => (.error (.exception m), .whisper, ⟨1, 1, 0⟩)
  | .noTranscriptFound =>
    match env.whisper youtube_id with
    | .ok t => (.ok (.str t), .whisper, ⟨1, 1, 0⟩)
    | .error m => (.error (.exception m), .whisper, ⟨1, 1, 0⟩)
  | .videoUnavailable =>
    match env.whisper youtube_id with
    | .ok t => (.ok (.str t), .whisper, ⟨1, 1, 0⟩)
    | .error m => (.error (.exception m), .whisper, ⟨1, 1, 0⟩)
  | .couldNotRetrieveTranscript =>
    match env.whisper youtube_id with
    | .ok t => (.ok (.str t), .whisper, ⟨1, 1, 0⟩)
    | .error m => (.error (.exception m), .whisper, ⟨1, 1, 0⟩)
  | .otherError m => (.error (.exception m), category, ⟨1, 0, 0⟩)

/-- Python subscript `rich_data["transcript"]`: works on the dict, raises
`TypeError` when `rich_data` is the bare string the whisper path
returned. -/
def subscriptTranscript : RichData → Except PyErr String
  | .dict t _ => .ok t
  | .str _ => .error (.typeError "string indices must be integers")

/-- Python subscript `rich_data["video_metadata"]`. -/
def subscriptMetadata : RichData → Except PyErr (Option VideoMetadata)
  | .dict _ md => .ok md
  | .str _ => .error (.typeError "string indices must be integers")

/-- Method `_can_cache`: database present and connected, and writable. -/
def can_cache (db : DBState) : Bool :=
  db.connected && Database.test_write_permissions db

/-- Method `_is_transcript_cached`: skipped (False) when the database is not
usable, otherwise `transcript_exists_by_youtube_id`. -/
def is_transcript_cached (db : DBState) (video_id : String) : Bool :=
  can_cache db && Database.transcript_exists_by_youtube_id db video_id

/-- Connection `_cache_transcript` performs its INSERT on (lines 180-182):
`fresh_conn = self.database.conn` — despite the local name, this is the one
shared connection object `_connect` created, not a per-call connection. -/
def cache_transcript_connection (db : DBState) : ConnUsed :=
  .shared db.connId

/-- Connection `_get_all_transcripts_info` reads on: it opens its own
`sqlite3.connect(self.database.db_path)` for the single call. -/
def get_all_transcripts_info_connection (freshConnId : Nat) : ConnUsed :=
  .fresh freshConnId

/-- Method `_cache_transcript`: insert one row into `transcripts` and return its
rowid.  When the metadata dict is `None`, `video_metadata.get(...)` raises
`AttributeError`, which the method's own `except Exception` catches,
returning `-1` with nothing inserted.  The `committee` parameter is
overwritten from the metadata dict before the INSERT.  The INSERT itself
has no uniqueness constraint to violate, so it appends a row even when a
row with the same `youtube_id` already exists. -/
def cache_transcript (env : Env) (db : DBState) (category : AIAgent)
    (youtube_id content : String) (video_metadata : Option VideoMetadata)
    (_committee : Option String) : DBState × Int :=
  match video_metadata with
  | none => (db, -1)
  | some md =>
    let row : TranscriptRow :=
      { id := db.nextTranscriptId
        committee := some md.committee
        youtube_id := youtube_id
        content := content
        meeting_date := md.meeting_date
        yt_published_date := some md.published_at
        fetch_date := env.now
        model := category.value
        video_title := some md.title
        video_duration_seconds := some md.duration_seconds
        video_duration_formatted := some md.duration_formatted
        video_channel := some md.channel_title
        view_count := some md.view_count
        like_count := some md.like_count
        comment_count := some md.comment_count }
    ({ db with
        transcripts := db.transcripts ++ [row]
        nextTranscriptId := db.nextTranscriptId + 1 },
      (db.nextTranscriptId : Int))

/-- The value `get_transcript` gives back to its caller: the cached-path
dict (`source = "database_cache"`, `content` from column index 3,
`cached_at` from column index 4, which the schema makes `meeting_date`),
the fetched-path dict (`model` from `self.category`, `source = "YouTube
Data API"`), or the `JSONResponse(status_code=500, ...)` error. -/
inductive Response
  | cachedDict (source youtube_id : String) (transcript_id : Nat)
      (content : String) (cached_at : Option String)
  | fetchedDict (model source youtube_id transcript : String)
      (video : Option VideoMetadata)
  | jsonError (status_code : Nat) (error : String)

/-- Whether the value is a normal result dict or an error response with
status code 500 — the only two shapes `get_transcript` may return. -/
def Response.okOr500 : Response → Bool
  | .jsonError code _ => code == 500
  | _ => true

/-- The `try:` body of `get_transcript` (transcript_manager.py lines
72-96): cache check, cached path, or fetch + optional cache write +
formatted response.  The result carries the returned value or the raised
exception, the database state, the manager's `category` field, and the
external calls made. -/
def get_transcript_try (env : Env) (category : AIAgent) (db : DBState)
    (youtube_id : String) :
    Except PyErr Response × DBState × AIAgent × Calls :=
  if is_transcript_cached db youtube_id then
    match Database.get_transcript_by_youtube_id db youtube_id with
    | none =>
      (.error (.exception "Transcript data not found in database"), db, category,
        Calls.zero)
    | some row =>
      (.ok (.cachedDict "database_cache" youtube_id row.id row.content
          row.meeting_date), db, category, Calls.zero)
  else
    let fr := fetch_from_youtube env category youtube_id
    match fr.1 with
    | .error e => (.error e, db, fr.2.1, fr.2.2)
    | .ok rich =>
      match subscriptTranscript rich with
      | .error e => (.error e, db, fr.2.1, fr.2.2)
      | .ok transcript =>
        match subscriptMetadata rich with
        | .error e => (.error e, db, fr.2.1, fr.2.2)
        | .ok video_metadata =>
          let db' :=
            if can_cache db then
              (cache_transcript env db fr.2.1 youtube_id transcript
                video_metadata none).1
            else db
          (.ok (.fetchedDict fr.2.1.value "YouTube Data API" youtube_id
              transcript video_metadata), db', fr.2.1, fr.2.2)

/-- Method `get_transcript` (transcript_manager.py lines 57-104): the body above
wrapped in `except Exception`, which turns any raised exception into
`JSONResponse(status_code=500, content=...)`. -/
def get_transcript (env : Env) (category : AIAgent) (db : DBState)
    (youtube_id : String) : Response × DBState × AIAgent × Calls :=
  let t := get_transcript_try env category db youtube_id
  match t.1 with
  | .ok r => (r, t.2)
  | .error e =>
    (.jsonError 500 ("Failed to get transcript from YouTube: " ++ e.message),
      t.2)

/-- Concrete metadata dict used by concrete runs. -/
def mdSample : VideoMetadata :=
  { published_at := "2026-01-01T00:00:00Z"
    title := "1.1.2026 City Council Meeting"
    channel_title := "City of Fall River"
    duration_seconds := 1143
    duration_formatted := "19:03"
    view_count := 100
    like_count := 5
    comment_count := 2
    meeting_date := some "01-01-2026"
    committee := "City Council Meeting" }

/-- Concrete oracle for the end-to-end fallback scenario: captions are
disabled for every id and the audio fallback succeeds with `"A B C"`. -/
def envC1 : Env :=
  { captions := fun _ => .transcriptsDisabled
    whisper := fun _ => .ok "A B C"
    metadata := fun _ => none
    now := "2026-10-12T00:00:00" }

/-- Concrete oracle whose caption fetch raises an exception outside the
four-member taxonomy. -/
def envOther : Env :=
  { envC1 with captions := fun _ => .otherError "connection reset" }

/-- Concrete oracle under which no external call is expected to happen. -/
def envQuiet : Env :=
  { envC1 with whisper := fun _ => .error "should not be called" }

/-- An empty, connected, writable database. -/
def dbEmpty : DBState :=
  { transcripts := []
    video_queue := []
    nextTranscriptId := 1
    nextQueueId := 1
    connected := true
    writable := true
    connId := 0 }

/-- A cached row for video `"cachedvid"`. -/
def rowCached : TranscriptRow :=
  { id := 1
    committee := some "City Council Meeting"
    youtube_id := "cachedvid"
    content := "cached transcript text"
    meeting_date := some "01-01-2026"
    yt_published_date := some "2026-01-01T00:00:00Z"
    fetch_date := "2026-01-02T00:00:00"
    model := "Grok"
    video_title := some "1.1.2026 City Council Meeting"
    video_duration_seconds := some 1143
    video_duration_formatted := some "19:03"
    video_channel := some "City of Fall River"
    view_count := some 100
    like_count := some 5
    comment_count := some 2 }

/-- A database that already caches a transcript for `"cachedvid"`. -/
def dbOneRow : DBState :=
  { dbEmpty with transcripts := [rowCached], nextTranscriptId := 2 }

/-- First put: cache a record for `"abc12345678"` with content
`"first content"`. -/
def putOnce : DBState × Int :=
  cache_transcript envC1 dbEmpty .grok "abc12345678" "first content"
    (some mdSample) none

/-- Second put for the same video id, content `"second content"`. -/
def putTwice : DBState × Int :=
  cache_transcript envC1 putOnce.1 .grok "abc12345678" "second content"
    (some mdSample) none

end TranscriptManager

namespace VideoQueueManager

/-- Method `get_existing_youtube_ids`: `SELECT youtube_id FROM transcripts` (the
Python set is modelled by list membership). -/
def get_existing_youtube_ids (db : DBState) : List String :=
  db.transcripts.map (fun r => r.youtube_id)

/-- Method `get_queued_youtube_ids`: `SELECT youtube_id FROM video_queue`. -/
def get_queued_youtube_ids (db : DBState) : List String :=
  db.video_queue.map (fun r => r.youtube_id)

/-- Oracle for the cheap caption-availability probe `_check_captions`,
which catches every exception and always returns a boolean. -/
structure QueueEnv where
  captionsAvailable : String → Bool

/-- Method `_add_to_queue`: probe caption availability, then `INSERT OR IGNORE`
into `video_queue`, whose `youtube_id` column is UNIQUE; the returned flag
is `cursor.rowcount > 0`, i.e. whether a row was actually inserted. -/
def add_to_queue (qenv : QueueEnv) (db : DBState) (youtube_id : String) :
    DBState × Bool :=
  if youtube_id ∈ get_queued_youtube_ids db then
    (db, false)
  else
    ({ db with
        video_queue := db.video_queue
          ++ [{ id := db.nextQueueId
                youtube_id := youtube_id
                transcript_available := qenv.captionsAvailable youtube_id }]
        nextQueueId := db.nextQueueId + 1 },
      true)

/-- The per-discovery counters `queue_new_videos` accumulates. -/
structure DiscoveryResults where
  total_discovered : Nat
  already_exists : Nat
  already_in_queue : Nat
  newly_queued : Nat
  skipped : Nat
  failed : Nat
deriving DecidableEq

/-- The per-id loop of `queue_new_videos` (video_queue_manager.py lines
364-393): skip ids with a transcript, skip ids already queued (tracking
newly queued ids in the in-run `queued_ids` set), otherwise insert. -/
def processDiscovered (qenv : QueueEnv) (existing : List String) :
    List String → DBState → List String → DiscoveryResults →
      DiscoveryResults × DBState
  | [], db, _, res => (res, db)
  | youtube_id :: rest, db, queued, res =>
    if youtube_id ∈ existing then
      processDiscovered qenv existing rest db queued
        { res with
            already_exists := res.already_exists + 1
            skipped := res.skipped + 1 }
    else if youtube_id ∈ queued then
      processDiscovered qenv existing rest db queued
        { res with
            already_in_queue := res.already_in_queue + 1
            skipped := res.skipped + 1 }
    else
      let a := add_to_queue qenv db youtube_id
      if a.2 then
        processDiscovered qenv existing rest a.1 (queued ++ [youtube_id])
          { res with newly_queued := res.newly_queued + 1 }
      else
        processDiscovered qenv existing rest a.1 queued
          { res with failed := res.failed + 1 }

/-- Method `queue_new_videos`: snapshot the transcript ids and queued ids, then
process every discovered id (`scraped` stands for the id list
`scrape_youtube_ids` produced). -/
def queue_new_videos (qenv : QueueEnv) (db : DBState) (scraped : List String) :
    DiscoveryResults × DBState :=
  processDiscovered qenv (get_existing_youtube_ids db) scraped db
    (get_queued_youtube_ids db)
    { total_discovered := scraped.length
      already_exists := 0
      already_in_queue := 0
      newly_queued := 0
      skipped := 0
      failed := 0 }

/-- Concrete probe oracle: captions available for every id. -/
def qenvW : QueueEnv := { captionsAvailable := fun _ => true }

end VideoQueueManager

end FallRiver

namespace FallRiver

namespace WhisperProcessor

theorem extractChunks_all_ok (env : WhisperEnv) (td vid : String)
    (l : List (Nat × Nat)) (fs : List String)
    (h : ∀ p ∈ l, env.extractOk p.1 = true) :
    (extractChunks env td vid l fs).1 = .ok () := by
  induction l generalizing fs with
  | nil => rfl
  | cons a rest ih =>
    obtain ⟨i, s⟩ := a
    simp only [extractChunks]
    rw [if_pos (h (i, s) (List.mem_cons_self _ _))]
    exact ih _ (fun p hp => h p (List.mem_cons_of_mem _ hp))

theorem transcribeChunks_all_ok (env : WhisperEnv) (ts : Nat → String)
    (l : List (Nat × Nat))
    (h : ∀ p ∈ l, env.transcribeChunk p.1 = .ok (ts p.1)) :
    transcribeChunks env l = .ok (l.map (fun p => ts p.1)) := by
  induction l with
  | nil => rfl
  | cons a rest ih =>
    obtain ⟨i, s⟩ := a
    simp only [transcribeChunks, List.map_cons]
    rw [h (i, s) (List.mem_cons_self _ _),
      ih (fun p hp => h p (List.mem_cons_of_mem _ hp))]

theorem chunkStarts_length (d : ℚ) :
    (chunkStarts d).length = (Int.toNat ⌊d⌋ + 1199) / 1200 := by
  simp [chunkStarts, pyRange, chunk_duration]

/-- Claim C5, counterexample. The claim asserts that for every probed
duration `D > 0` the fallback produces exactly `ceil(D / 1200)` chunks.
The code truncates the probed duration with `int()` before the `range`
call, so at `D = 2400.5` seconds it produces 2 chunks while
`ceil(2400.5 / 1200) = 3`. -/
theorem chunk_count_ceil_claim_false :
    (0 : ℚ) < 4801 / 2
    ∧ (chunkStarts (4801 / 2)).length = 2
    ∧ ⌈(4801 / 2 : ℚ) / 1200⌉ = 3
    ∧ ((((chunkStarts (4801 / 2)).length : ℤ) == ⌈(4801 / 2 : ℚ) / 1200⌉) = false) := by
  have hfl : ⌊(4801 / 2 : ℚ)⌋ = 2400 := by
    rw [Int.floor_eq_iff]; norm_num
  have hlen : (chunkStarts (4801 / 2)).length = 2 := by
    rw [chunkStarts_length, hfl]
    rfl
  have hceil : ⌈(4801 / 2 : ℚ) / 1200⌉ = 3 := by
    rw [Int.ceil_eq_iff]; norm_num
  refine ⟨by norm_num, hlen, hceil, ?_⟩
  rw [hlen, hceil]
  decide

/-- Claim C5, amended. For every probed duration `D` the fallback produces
exactly `(⌊D⌋ + 1199) / 1200` chunks (integer division — this is
`ceil(int(D) / 1200)`, which equals `ceil(D / 1200)` whenever `D` is a whole
number of seconds), with start offsets `0, 1200, 2400, ...`; the chunks are
transcribed in increasing start-time order, and when every extraction and
transcription succeeds the final result is the chunk transcripts joined in
that order by a single space. -/
theorem chunking_trunc_correct (env : WhisperEnv) (td vid : String)
    (fs : List String) (d : ℚ) (ts : Nat → String)
    (hprobe : env.probe = .ok d)
    (hex : ∀ i, env.extractOk i = true)
    (htr : ∀ i, env.transcribeChunk i = .ok (ts i)) :
    chunkStarts d
      = (List.range ((Int.toNat ⌊d⌋ + 1199) / 1200)).map (fun k => k * 1200)
    ∧ (∀ n : ℕ, d = (n : ℚ) →
        ((chunkStarts d).length : ℤ) = ⌈d / 1200⌉)
    ∧ (transcribe_large_file env td vid fs).1
      = .ok (String.intercalate " "
          ((List.range ((Int.toNat ⌊d⌋ + 1199) / 1200)).map ts)) := by
  have hlen := chunkStarts_length d
  have hmap : ((chunkStarts d).enum).map (fun p => ts p.1)
      = (List.range (chunkStarts d).length).map ts := by
    rw [show (fun p : Nat × Nat => ts p.1) = ts ∘ Prod.fst from rfl,
      ← List.map_map, List.enum_map_fst]
  refine ⟨rfl, ?_, ?_⟩
  · rintro n rfl
    rw [hlen, Int.floor_natCast]
    rw [show Int.toNat ((n : ℤ)) = n from by omega]
    set k := (n + 1199) / 1200 with hk
    have hA : 1200 * k ≤ n + 1199 := by omega
    have hB : n < 1200 * k + 1 := by omega
    symm
    rw [Int.ceil_eq_iff]
    have hA' : (1200 : ℚ) * k ≤ (n : ℚ) + 1199 := by exact_mod_cast hA
    have hB2 : n ≤ 1200 * k := by omega
    have hB2' : (n : ℚ) ≤ 1200 * k := by exact_mod_cast hB2
    constructor
    · rw [lt_div_iff₀ (by norm_num : (0 : ℚ) < 1200)]
      push_cast
      linarith
    · rw [div_le_iff₀ (by norm_num : (0 : ℚ) < 1200)]
      push_cast
      linarith
  · have hE := extractChunks_all_ok env td vid ((chunkStarts d).enum) fs
      (fun p _ => hex p.1)
    have hT := transcribeChunks_all_ok env ts ((chunkStarts d).enum)
      (fun p _ => htr p.1)
    simp only [transcribe_large_file, split_audio_file, hprobe, hE, hT, hmap, hlen]

/-- Claim C6, counterexample. The claim asserts that a probed duration of
zero makes the fallback fail with a fatal error and that it never returns
an empty transcript; on the code, an over-ceiling file whose duration
probes at 0 yields zero chunks and the fallback returns the empty string
successfully. -/
theorem zero_duration_returns_empty_transcript :
    (transcribe_youtube_video envDurZero "abc12345678" []).1
      = Except.ok "" := by rfl

/-- Claim C6, amended. A duration-probe failure is fatal to the fallback
(the `CalledProcessError` is re-raised as `Audio processing failed: ...`),
but a probed duration whose truncation is not positive produces zero chunks
and the empty-string transcript is returned successfully. -/
theorem probe_failure_fatal_zero_duration_empty (env : WhisperEnv)
    (td vid : String) (fs : List String) :
    (∀ m, env.probe = .fail m →
      (transcribe_large_file env td vid fs).1
        = .error ("Audio processing failed: " ++ m))
    ∧ (∀ d : ℚ, env.probe = .ok d → ⌊d⌋ ≤ 0 →
      (transcribe_large_file env td vid fs).1 = .ok "") := by
  constructor
  · intro m hm
    simp only [transcribe_large_file, split_audio_file, hm]
  · intro d hd hfl
    have h0 : Int.toNat ⌊d⌋ = 0 := by omega
    have hnil : chunkStarts d = [] := by
      simp [chunkStarts, pyRange, chunk_duration, h0]
    simp only [transcribe_large_file, split_audio_file, hd, hnil,
      List.enum_nil, extractChunks, transcribeChunks]
    rfl

/-- Witness for the amended C5 theorem: the end-to-end scenario of the
spec, duration 2500 seconds, chunk transcripts `"A"`, `"B"`, `"C"`. -/
theorem chunking_trunc_correct_witness :
    chunkStarts 2500 = [0, 1200, 2400]
    ∧ (transcribe_large_file env2500 tempDirName "abc12345678" []).1
      = .ok "A B C" := by
  have h := chunking_trunc_correct env2500 tempDirName "abc12345678" []
    2500 chunkTexts rfl (fun _ => rfl) (fun _ => rfl)
  exact ⟨by rw [h.1]; rfl, by rw [h.2.2]; rfl⟩

/-- Witness for the amended C6 theorem, at a failing probe and at a zero
probed duration. -/
theorem probe_failure_fatal_zero_duration_empty_witness :
    (transcribe_large_file envProbeFail tempDirName "abc12345678" []).1
      = .error "Audio processing failed: ffprobe exited 1"
    ∧ (transcribe_large_file envDurZero tempDirName "abc12345678" []).1
      = .ok "" :=
  ⟨(probe_failure_fatal_zero_duration_empty envProbeFail tempDirName
      "abc12345678" []).1 "ffprobe exited 1" rfl,
    (probe_failure_fatal_zero_duration_empty envDurZero tempDirName
      "abc12345678" []).2 0 rfl (by decide)⟩

/-- Claim C7. On every exit path of `transcribe_youtube_video` — success or
any raising path, including a transcription failure on a middle chunk — no
path under the scoped temporary directory (the directory itself and every
chunk file inside it) exists in the final filesystem: the `finally:` clause
removes the whole tree before the call returns or raises. -/
theorem transcribe_cleanup_on_every_path (env : WhisperEnv) (vid : String)
    (fs0 : List String) :
    ((transcribe_youtube_video env vid fs0).2.all
      (fun p => !(tempDirName.isPrefixOf p))) = true := by
  rw [List.all_eq_true]
  intro p hp
  exact (List.mem_filter.mp hp).2

end WhisperProcessor

namespace TranscriptManager

/-- Claim C1 (code bug). With captions disabled for `"abc12345678"` and the
audio fallback succeeding with `"A B C"`, `get_transcript` does not return
a success result carrying `"A B C"`: `_fetch_from_youtube` hands back the
bare string `_fetch_via_whisper` returned, `rich_data["transcript"]` then
raises `TypeError`, and the caller receives the 500 error response — even
though the whisper fallback was invoked and succeeded. -/
theorem whisper_fallback_returns_error_response :
    get_transcript envC1 .grok dbEmpty "abc12345678"
      = (.jsonError 500
          "Failed to get transcript from YouTube: string indices must be integers",
        dbEmpty, .whisper, ⟨1, 1, 0⟩) := by
  rfl

/-- Claim C10. For every behaviour of the cache, the caption fetcher, the
fallback and the metadata fetcher, `get_transcript` returns either a normal
result dictionary or an error response with status code 500: every
exception the body raises is absorbed by its `except Exception` clause. -/
theorem get_transcript_never_raises (env : Env) (category : AIAgent)
    (db : DBState) (youtube_id : String) :
    (get_transcript env category db youtube_id).1.okOr500 = true := by
  cases hic : is_transcript_cached db youtube_id with
  | true =>
    cases hrow : Database.get_transcript_by_youtube_id db youtube_id with
    | none =>
      simp [get_transcript, get_transcript_try, hic, hrow, Response.okOr500]
    | some row =>
      simp [get_transcript, get_transcript_try, hic, hrow, Response.okOr500]
  | false =>
    cases hcap : env.captions youtube_id with
    | fetched t =>
      simp [get_transcript, get_transcript_try, fetch_from_youtube, hic, hcap,
        subscriptTranscript, subscriptMetadata, Response.okOr500]
    | transcriptsDisabled =>
      cases hw : env.whisper youtube_id with
      | ok t =>
        simp [get_transcript, get_transcript_try, fetch_from_youtube, hic,
          hcap, hw, subscriptTranscript, Response.okOr500]
      | error m =>
        simp [get_transcript, get_transcript_try, fetch_from_youtube, hic,
          hcap, hw, Response.okOr500]
    | noTranscriptFound =>
      cases hw : env.whisper youtube_id with
      | ok t =>
        simp [get_transcript, get_transcript_try, fetch_from_youtube, hic,
          hcap, hw, subscriptTranscript, Response.okOr500]
      | error m =>
        simp [get_transcript, get_transcript_try, fetch_from_youtube, hic,
          hcap, hw, Response.okOr500]
    | videoUnavailable =>
      cases hw : env.whisper youtube_id with
      | ok t =>
        simp [get_transcript, get_transcript_try, fetch_from_youtube, hic,
          hcap, hw, subscriptTranscript, Response.okOr500]
      | error m =>
        simp [get_transcript, get_transcript_try, fetch_from_youtube, hic,
          hcap, hw, Response.okOr500]
    | couldNotRetrieveTranscript =>
      cases hw : env.whisper youtube_id with
      | ok t =>
        simp [get_transcript, get_transcript_try, fetch_from_youtube, hic,
          hcap, hw, subscriptTranscript, Response.okOr500]
      | error m =>
        simp [get_transcript, get_transcript_try, fetch_from_youtube, hic,
          hcap, hw, Response.okOr500]
    | otherError m =>
      simp [get_transcript, get_transcript_try, fetch_from_youtube, hic,
        hcap, Response.okOr500]

/-- Claim C3. For a video id already present in the cache (with the
database connected and writable), `get_transcript` returns the cached
record annotated `source = "database_cache"` with the stored content,
leaves the database untouched, performs zero external calls, and running it
a second time on the resulting state gives the identical result. -/
theorem cached_id_served_from_cache (env : Env) (category : AIAgent)
    (db : DBState) (youtube_id : String)
    (hconn : db.connected = true) (hwrite : db.writable = true)
    (hcached : Database.transcript_exists_by_youtube_id db youtube_id = true) :
    ∃ row, Database.get_transcript_by_youtube_id db youtube_id = some row
      ∧ get_transcript env category db youtube_id
        = (.cachedDict "database_cache" youtube_id row.id row.content
            row.meeting_date, db, category, Calls.zero)
      ∧ get_transcript env category
          (get_transcript env category db youtube_id).2.1 youtube_id
        = get_transcript env category db youtube_id := by
  obtain ⟨row, hrow⟩ : ∃ row,
      Database.get_transcript_by_youtube_id db youtube_id = some row := by
    cases hh : Database.get_transcript_by_youtube_id db youtube_id with
    | some r => exact ⟨r, rfl⟩
    | none =>
      exfalso
      rw [Database.get_transcript_by_youtube_id] at hh
      obtain ⟨r, hr, hb⟩ := List.any_eq_true.mp hcached
      have hmem : r ∈ db.transcripts.filter
          (fun r => r.youtube_id == youtube_id) :=
        List.mem_filter.mpr ⟨hr, hb⟩
      rw [List.head?_eq_none_iff.mp hh] at hmem
      exact absurd hmem (List.not_mem_nil r)
  have hic : is_transcript_cached db youtube_id = true := by
    simp [is_transcript_cached, can_cache, Database.test_write_permissions,
      hconn, hwrite, hcached]
  have hmain : get_transcript env category db youtube_id
      = (.cachedDict "database_cache" youtube_id row.id row.content
          row.meeting_date, db, category, Calls.zero) := by
    simp [get_transcript, get_transcript_try, hic, hrow]
  refine ⟨row, hrow, hmain, ?_⟩
  rw [hmain]
  exact hmain

/-- Claim C4. For an uncached video id the whisper fallback is invoked
(exactly once) if and only if the caption fetch raised one of the four
captions-unavailable exceptions; on any other exception the fallback is
never invoked and the failure surfaces as the fatal 500 error response. -/
theorem fallback_iff_captions_unavailable (env : Env) (category : AIAgent)
    (db : DBState) (youtube_id : String)
    (huncached : Database.transcript_exists_by_youtube_id db youtube_id
      = false) :
    ((get_transcript env category db youtube_id).2.2.2.whisper = 1
      ↔ (env.captions youtube_id).isCaptionsUnavailable = true)
    ∧ (∀ m, env.captions youtube_id = .otherError m →
        (get_transcript env category db youtube_id).2.2.2.whisper = 0
        ∧ (get_transcript env category db youtube_id).1
          = .jsonError 500 ("Failed to get transcript from YouTube: " ++ m)) := by
  have hic : is_transcript_cached db youtube_id = false := by
    simp [is_transcript_cached, huncached]
  cases hcap : env.captions youtube_id with
  | fetched t =>
    refine ⟨?_, ?_⟩
    · simp [get_transcript, get_transcript_try, fetch_from_youtube, hic, hcap,
        subscriptTranscript, subscriptMetadata,
        CaptionOutcome.isCaptionsUnavailable]
    · intro m hm
      exact absurd hm (by simp)
  | transcriptsDisabled =>
    refine ⟨?_, ?_⟩
    · cases hw : env.whisper youtube_id with
      | ok t =>
        simp [get_transcript, get_transcript_try, fetch_from_youtube, hic,
          hcap, hw, subscriptTranscript, CaptionOutcome.isCaptionsUnavailable]
      | error m =>
        simp [get_transcript, get_transcript_try, fetch_from_youtube, hic,
          hcap, hw, CaptionOutcome.isCaptionsUnavailable]
    · intro m hm
      exact absurd hm (by simp)
  | noTranscriptFound =>
    refine ⟨?_, ?_⟩
    · cases hw : env.whisper youtube_id with
      | ok t =>
        simp [get_transcript, get_transcript_try, fetch_from_youtube, hic,
          hcap, hw, subscriptTranscript, CaptionOutcome.isCaptionsUnavailable]
      | error m =>
        simp [get_transcript, get_transcript_try, fetch_from_youtube, hic,
          hcap, hw, CaptionOutcome.isCaptionsUnavailable]
    · intro m hm
      exact absurd hm (by simp)
  | videoUnavailable =>
    refine ⟨?_, ?_⟩
    · cases hw : env.whisper youtube_id with
      | ok t =>
        simp [get_transcript, get_transcript_try, fetch_from_youtube, hic,
          hcap, hw, subscriptTranscript, CaptionOutcome.isCaptionsUnavailable]
      | error m =>
        simp [get_transcript, get_transcript_try, fetch_from_youtube, hic,
          hcap, hw, CaptionOutcome.isCaptionsUnavailable]
    · intro m hm
      exact absurd hm (by simp)
  | couldNotRetrieveTranscript =>
    refine ⟨?_, ?_⟩
    · cases hw : env.whisper youtube_id with
      | ok t =>
        simp [get_transcript, get_transcript_try, fetch_from_youtube, hic,
          hcap, hw, subscriptTranscript, CaptionOutcome.isCaptionsUnavailable]
      | error m =>
        simp [get_transcript, get_transcript_try, fetch_from_youtube, hic,
          hcap, hw, CaptionOutcome.isCaptionsUnavailable]
    · intro m hm
      exact absurd hm (by simp)
  | otherError m0 =>
    refine ⟨?_, ?_⟩
    · simp [get_transcript, get_transcript_try, fetch_from_youtube, hic, hcap,
        CaptionOutcome.isCaptionsUnavailable]
    · intro m hm
      injection hm with hm0
      subst hm0
      constructor
      · simp [get_transcript, get_transcript_try, fetch_from_youtube, hic, hcap]
      · simp [get_transcript, get_transcript_try, fetch_from_youtube, hic,
          hcap, PyErr.message]

/-- Claim C2, counterexample. Caching a record for `"abc12345678"` and then
caching a second record for the same id does not report `AlreadyExists`:
the second put returns the fresh rowid 2, and afterwards two records with
that video id exist in the `transcripts` table (which has no UNIQUE
constraint on `youtube_id`). -/
theorem second_put_inserts_duplicate :
    putOnce.1.transcripts.length = 1
    ∧ putTwice.2 = 2
    ∧ (putTwice.1.transcripts.filter
        (fun r => r.youtube_id == "abc12345678")).length = 2 := by
  refine ⟨rfl, rfl, ?_⟩
  rfl

/-- Claim C2, amended. The `transcripts` schema has no uniqueness
constraint, so a second put for an already-cached video id appends a second
row and returns its fresh rowid instead of reporting `AlreadyExists`; the
first record is not overwritten — a lookup (`fetchone` in rowid order)
still returns the first record's content — but two records for the id then
exist. -/
theorem duplicate_put_appends_not_rejected (env1 env2 : Env) (db : DBState)
    (cat1 cat2 : AIAgent) (youtube_id c1 c2 : String) (md1 md2 : VideoMetadata)
    (co1 co2 : Option String)
    (hnew : Database.transcript_exists_by_youtube_id db youtube_id = false) :
    (Database.get_transcript_by_youtube_id
        ((cache_transcript env2
            ((cache_transcript env1 db cat1 youtube_id c1 (some md1) co1).1)
            cat2 youtube_id c2 (some md2) co2).1)
        youtube_id).map TranscriptRow.content = some c1
    ∧ (((cache_transcript env2
          ((cache_transcript env1 db cat1 youtube_id c1 (some md1) co1).1)
          cat2 youtube_id c2 (some md2) co2).1).transcripts.filter
        (fun r => r.youtube_id == youtube_id)).length = 2 := by
  have hnil : db.transcripts.filter (fun r => r.youtube_id == youtube_id) = [] :=
    List.filter_eq_nil_iff.mpr (List.any_eq_false.mp hnew)
  constructor
  · simp [cache_transcript, Database.get_transcript_by_youtube_id,
      List.filter_append, hnil]
  · simp [cache_transcript, List.filter_append, hnil]

/-- Witness for the amended C2 theorem: the concrete two-put run. -/
theorem duplicate_put_appends_not_rejected_witness :
    (Database.get_transcript_by_youtube_id putTwice.1 "abc12345678").map
        TranscriptRow.content = some "first content"
    ∧ (putTwice.1.transcripts.filter
        (fun r => r.youtube_id == "abc12345678")).length = 2 :=
  duplicate_put_appends_not_rejected envC1 envC1 dbEmpty .grok .grok
    "abc12345678" "first content" "second content" mdSample mdSample
    none none rfl

/-- Claim C9, counterexample. The cache write performed through the empty
database object runs on the shared `self.conn` handle (connection id 0,
the one `_connect` created), not on an independent per-call connection. -/
theorem cache_write_uses_shared_connection :
    cache_transcript_connection dbEmpty = ConnUsed.shared 0
    ∧ (cache_transcript_connection dbEmpty).isShared = true :=
  ⟨rfl, rfl⟩

/-- Claim C9, amended. Every cache write runs on the one shared connection
object `_connect` stored on the `Database` (opened with
`check_same_thread=False`), never on an independent per-call connection,
and consecutive puts through the same `Database` keep using that same
handle. -/
theorem cache_write_connection_is_shared (db : DBState) :
    cache_transcript_connection db = ConnUsed.shared db.connId
    ∧ (cache_transcript_connection db).isShared = true
    ∧ (∀ env category youtube_id content md co,
        cache_transcript_connection
          ((cache_transcript env db category youtube_id content md co).1)
        = cache_transcript_connection db) := by
  refine ⟨rfl, rfl, ?_⟩
  intro env category youtube_id content md co
  cases md with
  | none => rfl
  | some m => rfl

/-- Witness for C3: the cached video `"cachedvid"` in the one-row
database. -/
theorem cached_id_served_from_cache_witness :
    ∃ row, Database.get_transcript_by_youtube_id dbOneRow "cachedvid"
        = some row
      ∧ get_transcript envQuiet .grok dbOneRow "cachedvid"
        = (.cachedDict "database_cache" "cachedvid" row.id row.content
            row.meeting_date, dbOneRow, .grok, Calls.zero)
      ∧ get_transcript envQuiet .grok
          (get_transcript envQuiet .grok dbOneRow "cachedvid").2.1 "cachedvid"
        = get_transcript envQuiet .grok dbOneRow "cachedvid" :=
  cached_id_served_from_cache envQuiet .grok dbOneRow "cachedvid"
    rfl rfl (by decide)

/-- Witness for C4: an uncached id whose caption fetch raises an exception
outside the four-member taxonomy. -/
theorem fallback_iff_captions_unavailable_witness :
    (((get_transcript envOther .grok dbEmpty "abc12345678").2.2.2.whisper = 1)
      ↔ (envOther.captions "abc12345678").isCaptionsUnavailable = true)
    ∧ (∀ m, envOther.captions "abc12345678" = .otherError m →
        (get_transcript envOther .grok dbEmpty "abc12345678").2.2.2.whisper = 0
        ∧ (get_transcript envOther .grok dbEmpty "abc12345678").1
          = .jsonError 500 ("Failed to get transcript from YouTube: " ++ m)) :=
  fallback_iff_captions_unavailable envOther .grok dbEmpty "abc12345678" rfl

end TranscriptManager

namespace VideoQueueManager

theorem add_to_queue_not_mem (qenv : QueueEnv) (db : DBState) (y : String)
    (h : y ∉ get_queued_youtube_ids db) :
    (add_to_queue qenv db y).2 = true
    ∧ get_queued_youtube_ids (add_to_queue qenv db y).1
      = get_queued_youtube_ids db ++ [y] := by
  unfold add_to_queue
  rw [if_neg h]
  exact ⟨rfl, by simp [get_queued_youtube_ids]⟩

theorem processDiscovered_spec (qenv : QueueEnv) (existing : List String)
    (ids : List String) (db : DBState) (queued : List String)
    (res : DiscoveryResults)
    (hq : ∀ x, x ∈ queued ↔ x ∈ get_queued_youtube_ids db)
    (hnd : (get_queued_youtube_ids db).Nodup) :
    (get_queued_youtube_ids
      (processDiscovered qenv existing ids db queued res).2).Nodup
    ∧ (processDiscovered qenv existing ids db queued res).1.failed = res.failed
    ∧ (∀ x, x ∈ get_queued_youtube_ids
          (processDiscovered qenv existing ids db queued res).2
        ↔ (x ∈ get_queued_youtube_ids db ∨ (x ∈ ids ∧ x ∉ existing))) := by
  induction ids generalizing db queued res with
  | nil =>
    refine ⟨hnd, rfl, ?_⟩
    intro x
    simp [processDiscovered]
  | cons y rest ih =>
    by_cases hex : y ∈ existing
    · rw [show processDiscovered qenv existing (y :: rest) db queued res
          = processDiscovered qenv existing rest db queued
              { res with
                  already_exists := res.already_exists + 1
                  skipped := res.skipped + 1 } from by
        rw [processDiscovered, if_pos hex]]
      obtain ⟨h1, h2, h3⟩ := ih db queued
        { res with
            already_exists := res.already_exists + 1
            skipped := res.skipped + 1 } hq hnd
      refine ⟨h1, h2, ?_⟩
      intro x
      rw [h3 x]
      constructor
      · rintro (hx | ⟨hx1, hx2⟩)
        · exact Or.inl hx
        · exact Or.inr ⟨List.mem_cons_of_mem _ hx1, hx2⟩
      · rintro (hx | ⟨hx1, hx2⟩)
        · exact Or.inl hx
        · rcases List.mem_cons.mp hx1 with rfl | hx1
          · exact absurd hex hx2
          · exact Or.inr ⟨hx1, hx2⟩
    · by_cases hqd : y ∈ queued
      · rw [show processDiscovered qenv existing (y :: rest) db queued res
            = processDiscovered qenv existing rest db queued
                { res with
                    already_in_queue := res.already_in_queue + 1
                    skipped := res.skipped + 1 } from by
          rw [processDiscovered, if_neg hex, if_pos hqd]]
        obtain ⟨h1, h2, h3⟩ := ih db queued
          { res with
              already_in_queue := res.already_in_queue + 1
              skipped := res.skipped + 1 } hq hnd
        refine ⟨h1, h2, ?_⟩
        intro x
        rw [h3 x]
        constructor
        · rintro (hx | ⟨hx1, hx2⟩)
          · exact Or.inl hx
          · exact Or.inr ⟨List.mem_cons_of_mem _ hx1, hx2⟩
        · rintro (hx | ⟨hx1, hx2⟩)
          · exact Or.inl hx
          · rcases List.mem_cons.mp hx1 with rfl | hx1
            · exact Or.inl ((hq x).mp hqd)
            · exact Or.inr ⟨hx1, hx2⟩
      · have hyq : y ∉ get_queued_youtube_ids db := fun hmem => hqd ((hq y).mpr hmem)
        obtain ⟨ha2, hqids⟩ := add_to_queue_not_mem qenv db y hyq
        rw [show processDiscovered qenv existing (y :: rest) db queued res
            = processDiscovered qenv existing rest (add_to_queue qenv db y).1
                (queued ++ [y])
                { res with newly_queued := res.newly_queued + 1 } from by
          rw [processDiscovered, if_neg hex, if_neg hqd]
          simp only [ha2, if_true]]
        have hq' : ∀ x, x ∈ queued ++ [y]
            ↔ x ∈ get_queued_youtube_ids (add_to_queue qenv db y).1 := by
          intro x
          rw [hqids, List.mem_append, List.mem_append, hq x]
        have hnd' : (get_queued_youtube_ids (add_to_queue qenv db y).1).Nodup := by
          rw [hqids]
          refine List.Nodup.append hnd (List.nodup_singleton y) ?_
          intro a ha hb
          rw [List.mem_singleton] at hb
          subst hb
          exact hyq ha
        obtain ⟨h1, h2, h3⟩ := ih (add_to_queue qenv db y).1 (queued ++ [y])
          { res with newly_queued := res.newly_queued + 1 } hq' hnd'
        refine ⟨h1, h2, ?_⟩
        intro x
        rw [h3 x, hqids]
        constructor
        · rintro (hx | ⟨hx1, hx2⟩)
          · rcases List.mem_append.mp hx with hx | hx
            · exact Or.inl hx
            · rw [List.mem_singleton] at hx
              subst hx
              exact Or.inr ⟨List.mem_cons_self _ _, hex⟩
          · exact Or.inr ⟨List.mem_cons_of_mem _ hx1, hx2⟩
        · rintro (hx | ⟨hx1, hx2⟩)
          · exact Or.inl (List.mem_append.mpr (Or.inl hx))
          · rcases List.mem_cons.mp hx1 with rfl | hx1
            · exact Or.inl (List.mem_append.mpr (Or.inr (List.mem_singleton.mpr rfl)))
            · exact Or.inr ⟨hx1, hx2⟩

/-- Claim C8. Starting from a queue with no duplicate ids, any discovery
run keeps the queue duplicate-free, never counts a failure for skipped ids
(re-discovering a queued id is a no-op, not an error), never inserts an id
that already has a transcript, and an id discovered (once or many times)
that has no transcript ends up with exactly one queue entry — so
overlapping runs and repeated ids produce exactly one `QueueEntry`. -/
theorem queue_dedup (qenv : QueueEnv) (db : DBState) (scraped : List String)
    (youtube_id : String)
    (hnd : (get_queued_youtube_ids db).Nodup) :
    (get_queued_youtube_ids (queue_new_videos qenv db scraped).2).Nodup
    ∧ (queue_new_videos qenv db scraped).1.failed = 0
    ∧ (youtube_id ∈ get_existing_youtube_ids db →
        (youtube_id ∈ get_queued_youtube_ids (queue_new_videos qenv db scraped).2
          ↔ youtube_id ∈ get_queued_youtube_ids db))
    ∧ (youtube_id ∈ scraped → youtube_id ∉ get_existing_youtube_ids db →
        (get_queued_youtube_ids
          (queue_new_videos qenv db scraped).2).count youtube_id = 1) := by
  unfold queue_new_videos
  obtain ⟨h1, h2, h3⟩ := processDiscovered_spec qenv
    (get_existing_youtube_ids db) scraped db (get_queued_youtube_ids db)
    { total_discovered := scraped.length
      already_exists := 0
      already_in_queue := 0
      newly_queued := 0
      skipped := 0
      failed := 0 }
    (fun _ => Iff.rfl) hnd
  refine ⟨h1, h2, ?_, ?_⟩
  · intro hex
    rw [h3 youtube_id]
    constructor
    · rintro (hx | ⟨_, hx2⟩)
      · exact hx
      · exact absurd hex hx2
    · exact Or.inl
  · intro hs hex
    exact List.count_eq_one_of_mem h1 ((h3 youtube_id).mpr (Or.inr ⟨hs, hex⟩))

/-- Witness for C8: a database caching `"cachedvid"` with an empty queue,
and a discovery run that sees `"newvid"` twice and `"cachedvid"` once. -/
theorem queue_dedup_witness :
    (get_queued_youtube_ids
        (queue_new_videos qenvW TranscriptManager.dbOneRow
          ["newvid", "newvid", "cachedvid"]).2).count "newvid" = 1
    ∧ (queue_new_videos qenvW TranscriptManager.dbOneRow
        ["newvid", "newvid", "cachedvid"]).1.failed = 0 := by
  obtain ⟨_, h2, _, h4⟩ := queue_dedup qenvW TranscriptManager.dbOneRow
    ["newvid", "newvid", "cachedvid"] "newvid" (by decide)
  exact ⟨h4 (by decide) (by decide), h2⟩

end VideoQueueManager

end FallRiver
